import Mathlib

/-!
Shallow embedding of `src/vision-server/app.py` (FastAPI text-to-image
service).  Python unbounded `int` is modelled as `ℤ`, Python `float`
values that only ever hold exact request parameters or clock readings
as `ℚ`, strings as `String` (ASCII behaviour; the service only ever
compares and parses ASCII data).  HTTP exceptions (`HTTPException`)
and pydantic validation failures are modelled by `Except HTTPError`.
-/

namespace VisionServer

/-- `fastapi.HTTPException(status_code=..., detail=...)`. -/
structure HTTPError where
  status : ℕ
  detail : String
deriving DecidableEq, Repr

def exceptDecEq {ε α : Type} [DecidableEq ε] [DecidableEq α] :
    (a b : Except ε α) → Decidable (a = b)
  | .error x, .error y =>
    match decEq x y with
    | isTrue h => isTrue (h ▸ rfl)
    | isFalse h => isFalse (fun hh => h (by injection hh))
  | .error _, .ok _ => isFalse (fun hh => Except.noConfusion hh)
  | .ok _, .error _ => isFalse (fun hh => Except.noConfusion hh)
  | .ok x, .ok y =>
    match decEq x y with
    | isTrue h => isTrue (h ▸ rfl)
    | isFalse h => isFalse (fun hh => h (by injection hh))

instance {ε α : Type} [DecidableEq ε] [DecidableEq α] :
    DecidableEq (Except ε α) := exceptDecEq

/-- Python `str.lower()` (ASCII fragment; the characters the service
compares against — `x`, `b64_json` — are ASCII). -/
def pyLower (s : String) : String :=
  String.mk (s.data.map Char.toLower)

/-- Python `list.split("x")` for a one-character separator, on the
character list of the string: splits on every occurrence of `'x'`,
yielding `count 'x' + 1` pieces. -/
def splitOnX : List Char → List (List Char)
  | [] => [[]]
  | c :: cs =>
    if c = 'x' then [] :: splitOnX cs
    else
      match splitOnX cs with
      | [] => [[c]]
      | h :: t => (c :: h) :: t

/-- Digit-run tail of Python `int(str)`: digits with single underscores
allowed only between digits, accumulating the base-10 value. -/
def pyDigitsAux : List Char → ℕ → Option ℕ
  | [], acc => some acc
  | c :: cs, acc =>
    if c = '_' then
      match cs with
      | [] => none
      | d :: cs' =>
        if d.isDigit then pyDigitsAux cs' (acc * 10 + (d.toNat - 48)) else none
    else if c.isDigit then pyDigitsAux cs (acc * 10 + (c.toNat - 48)) else none

/-- Nonempty digit run (Python rejects a leading underscore and an
empty digit string). -/
def pyDigits : List Char → Option ℕ
  | [] => none
  | c :: cs => if c.isDigit then pyDigitsAux cs (c.toNat - 48) else none

/-- Strip leading and trailing whitespace, as Python `int(str)` does. -/
def stripWs (cs : List Char) : List Char :=
  ((cs.dropWhile Char.isWhitespace).reverse.dropWhile Char.isWhitespace).reverse

/-- Python `int(str)` (base 10, ASCII fragment): optional surrounding
whitespace, an optional sign, then a nonempty digit run with
underscores only between digits; `none` models `ValueError`. -/
def pyIntOfChars (cs : List Char) : Option ℤ :=
  match stripWs cs with
  | '+' :: rest => (pyDigits rest).map (fun n => (n : ℤ))
  | '-' :: rest => (pyDigits rest).map (fun n => -(n : ℤ))
  | rest => (pyDigits rest).map (fun n => (n : ℤ))

/-- The `detail` of the HTTP 400 raised when unpack-or-int fails in
`_parse_size`. -/
def sizeFormatError : HTTPError :=
  ⟨400, "size must look like 512x512"⟩

/-- The `detail` of the HTTP 400 raised by `_parse_size` when a parsed
dimension violates the `[256, MAX_EDGE]` bound (the f-string
interpolates `MAX_EDGE`). -/
def sizeBoundError (maxEdge : ℤ) : HTTPError :=
  ⟨400, "size must stay within 256-" ++ toString maxEdge ++ "px per dimension"⟩

/-- `_parse_size(size)` (app.py lines 154–167): lowercase, split on
`"x"`, unpack into exactly two pieces and convert both with `int`
inside one `try` (any `ValueError` becomes the HTTP 400 format error),
then check both dimensions against `[256, MAX_EDGE]`. -/
def _parse_size (maxEdge : ℤ) (size : String) : Except HTTPError (ℤ × ℤ) :=
  match splitOnX (pyLower size).toList with
  | [ws, hs] =>
    match pyIntOfChars ws, pyIntOfChars hs with
    | some w, some h =>
      if w < 256 ∨ h < 256 ∨ maxEdge < w ∨ maxEdge < h then
        .error (sizeBoundError maxEdge)
      else
        .ok (w, h)
    | some _, none => .error sizeFormatError
    | none, _ => .error sizeFormatError
  | _ => .error sizeFormatError

example : _parse_size 1024 "512x512" = .ok (512, 512) := by decide
example : _parse_size 1024 "512X512" = .ok (512, 512) := by decide
example : _parse_size 1024 "abcx512" = .error sizeFormatError := by decide
example : _parse_size 1024 "4096x512" = .error (sizeBoundError 1024) := by decide
example : _parse_size 1024 "512x512x512" = .error sizeFormatError := by decide
example : _parse_size 1024 "512" = .error sizeFormatError := by decide
example : _parse_size 1024 " 512 x 512 " = .ok (512, 512) := by decide
example : _parse_size 1024 "-512x512" = .error (sizeBoundError 1024) := by decide

/-! ## Native schema (`GenerateRequest`, app.py lines 68–102)

pydantic `Field(default=..., ge=..., le=...)` declarations.  The
declared defaults are collected in one record, mirroring
`GenerateRequest.model_fields`, which both the native validator and
the OpenAI-compatible endpoint read. -/

/-- The `Field(default=...)` values declared on `GenerateRequest`
(pydantic exposes them as `GenerateRequest.model_fields[...].default`). -/
structure GenerateDefaults where
  guidance_scale : ℚ
  num_inference_steps : ℤ
  width : ℤ
  height : ℤ
deriving DecidableEq, Repr

def generateDefaults : GenerateDefaults :=
  { guidance_scale := 7
    num_inference_steps := 25
    width := 512
    height := 512 }

/-- A validated `GenerateRequest` instance: the canonical generation
request both endpoints converge on. -/
structure GenerateRequest where
  prompt : String
  negative_prompt : Option String
  guidance_scale : ℚ
  num_inference_steps : ℤ
  seed : Option ℤ
  width : ℤ
  height : ℤ
deriving DecidableEq, Repr

/-- The raw JSON body of a native request: `none` = field absent. -/
structure RawGenerateRequest where
  prompt : Option String
  negative_prompt : Option String
  guidance_scale : Option ℚ
  num_inference_steps : Option ℤ
  seed : Option ℤ
  width : Option ℤ
  height : Option ℤ
deriving DecidableEq, Repr

/-- A pydantic validation failure; FastAPI surfaces it as HTTP 422
(the real body lists every failing field — we keep the first). -/
def validationError (msg : String) : HTTPError :=
  ⟨422, msg⟩

/-- Last field of `validateGenerate`: `height`. -/
def validateGenerateHeight (maxEdge : ℤ) (r : RawGenerateRequest)
    (p : String) (g : ℚ) (n : ℤ) (s : Option ℤ) (w : ℤ) :
    Except HTTPError GenerateRequest :=
  match r.height with
  | some h =>
    if h < 256 ∨ maxEdge < h then
      .error (validationError "height: out of range")
    else
      .ok { prompt := p, negative_prompt := r.negative_prompt,
            guidance_scale := g, num_inference_steps := n, seed := s,
            width := w, height := h }
  | none =>
    .ok { prompt := p, negative_prompt := r.negative_prompt,
          guidance_scale := g, num_inference_steps := n, seed := s,
          width := w, height := generateDefaults.height }

/-- Continuation of `validateGenerate` for `width`. -/
def validateGenerateDims (maxEdge : ℤ) (r : RawGenerateRequest)
    (p : String) (g : ℚ) (n : ℤ) (s : Option ℤ) :
    Except HTTPError GenerateRequest :=
  match r.width with
  | some w =>
    if w < 256 ∨ maxEdge < w then
      .error (validationError "width: out of range")
    else validateGenerateHeight maxEdge r p g n s w
  | none => validateGenerateHeight maxEdge r p g n s generateDefaults.width

/-- Continuation of `validateGenerate` from `seed` on. -/
def validateGenerateSeed (maxEdge : ℤ) (r : RawGenerateRequest)
    (p : String) (g : ℚ) (n : ℤ) : Except HTTPError GenerateRequest :=
  match r.seed with
  | some s =>
    if s < 0 then .error (validationError "seed: out of range")
    else validateGenerateDims maxEdge r p g n (some s)
  | none => validateGenerateDims maxEdge r p g n none

/-- Continuation of `validateGenerate` from `num_inference_steps` on. -/
def validateGenerateSteps (maxEdge : ℤ) (r : RawGenerateRequest)
    (p : String) (g : ℚ) : Except HTTPError GenerateRequest :=
  match r.num_inference_steps with
  | some n =>
    if n < 1 ∨ 100 < n then
      .error (validationError "num_inference_steps: out of range")
    else validateGenerateSeed maxEdge r p g n
  | none => validateGenerateSeed maxEdge r p g generateDefaults.num_inference_steps

/-- pydantic validation of `GenerateRequest`: each *provided* field is
checked against its `ge`/`le`/`min_length` constraints; an absent
field takes the declared default, which pydantic does **not**
re-validate (`validate_default` is off). -/
def validateGenerate (maxEdge : ℤ) (r : RawGenerateRequest) :
    Except HTTPError GenerateRequest :=
  match r.prompt with
  | none => .error (validationError "prompt: field required")
  | some p =>
    if p.length < 1 then
      .error (validationError "prompt: string too short")
    else
      match r.guidance_scale with
      | some g =>
        if g < 0 ∨ 20 < g then
          .error (validationError "guidance_scale: out of range")
        else validateGenerateSteps maxEdge r p g
      | none => validateGenerateSteps maxEdge r p generateDefaults.guidance_scale

example :
    validateGenerate 1024
      { prompt := some "cat", negative_prompt := none, guidance_scale := none,
        num_inference_steps := none, seed := none, width := none, height := none } =
    .ok { prompt := "cat", negative_prompt := none, guidance_scale := 7,
          num_inference_steps := 25, seed := none, width := 512, height := 512 } := by
  decide

example :
    validateGenerate 1024
      { prompt := some "cat", negative_prompt := none, guidance_scale := none,
        num_inference_steps := none, seed := none, width := some 4096, height := none } =
    .error (validationError "width: out of range") := by
  decide

/-! ## Pipeline lifecycle (app.py lines 13–19, 30, 33–65)

Environment-derived configuration, the `hasattr` capability probes of
the loaded pipeline, and the module-global `PIPELINE` singleton. -/

/-- Environment-derived module constants (`MODEL_ID`, `MODEL_REVISION`,
`ENABLE_*`, `MAX_EDGE`, `HF_TOKEN`), read once at import. -/
structure Config where
  model_id : String
  model_revision : Option String
  hf_token : Option String
  enable_safety_checker : Bool
  enable_tiling : Bool
  enable_attention_slicing : Bool
  max_edge : ℤ
deriving DecidableEq, Repr

/-- What `hasattr(PIPELINE, ...)` reports for the loaded model variant. -/
structure Caps where
  has_safety_checker : Bool
  has_requires_flag : Bool
  has_vae_tiling : Bool
  has_attention_slicing : Bool
deriving DecidableEq, Repr

/-- The observable attributes of the `DiffusionPipeline` object that
`load_pipeline` reads or mutates. -/
structure Pipeline where
  model_id : String
  revision : Option String
  token : Option String
  safety_checker : Bool
  requires_safety_checker : Bool
  device : String
  progress_bar_disabled : Bool
  vae_tiling : Bool
  attention_slicing : Bool
deriving DecidableEq, Repr

/-- `AutoPipelineForText2Image.from_pretrained(MODEL_ID, **load_kwargs)`:
the freshly loaded object, before any post-load configuration. -/
def from_pretrained (cfg : Config) (caps : Caps) : Pipeline :=
  { model_id := cfg.model_id
    revision := cfg.model_revision
    token := cfg.hf_token
    safety_checker := caps.has_safety_checker
    requires_safety_checker := caps.has_requires_flag
    device := "cpu"
    progress_bar_disabled := false
    vae_tiling := false
    attention_slicing := false }

/-- The construction branch of `load_pipeline` (app.py lines 37–64):
load, conditionally strip the safety checker, move to CUDA, silence
the progress bar, and enable tiling / attention slicing when both the
config flag and the capability are present. -/
def buildPipeline (cfg : Config) (caps : Caps) : Pipeline :=
  let p := from_pretrained cfg caps
  let p :=
    if cfg.enable_safety_checker then p
    else
      let p := if caps.has_safety_checker then { p with safety_checker := false } else p
      if caps.has_requires_flag then { p with requires_safety_checker := false } else p
  let p := { p with device := "cuda" }
  let p := { p with progress_bar_disabled := true }
  let p :=
    if cfg.enable_tiling ∧ caps.has_vae_tiling then { p with vae_tiling := true } else p
  if cfg.enable_attention_slicing ∧ caps.has_attention_slicing then
    { p with attention_slicing := true }
  else p

/-- The mutable module state: the global `PIPELINE` (initially `None`). -/
structure ServerState where
  pipeline : Option Pipeline
deriving DecidableEq, Repr

/-- `load_pipeline()` (app.py lines 33–65), in state-passing form.
Returns the pipeline handle, the updated global state, and whether
the construction branch executed on this call. -/
def load_pipeline (cfg : Config) (caps : Caps) (st : ServerState) :
    Pipeline × ServerState × Bool :=
  match st.pipeline with
  | some p => (p, st, false)
  | none =>
    let p := buildPipeline cfg caps
    (p, ⟨some p⟩, true)

/-- Number of times the construction branch runs over a sequence of
`n` consecutive `load_pipeline()` calls starting from state `st`. -/
def loadConstructionCount (cfg : Config) (caps : Caps) : ℕ → ServerState → ℕ
  | 0, _ => 0
  | n + 1, st =>
    let r := load_pipeline cfg caps st
    (if r.2.2 then 1 else 0) + loadConstructionCount cfg caps n r.2.1

/-! ## Generation executor (`_run_generation`, app.py lines 111–136)

The diffusers call, PNG save and base64 encode are external
collaborators, passed in as functions; the two `time.perf_counter()`
readings are modelled by an exact start time plus the (non-negative)
durations the external calls consume, so the second reading — taken
*after* the PNG/base64 encoding — is `t0 + pipeDur + encDur`. -/

/-- PNG bytes of a generated image (opaque). -/
abbrev Image := String

/-- The keyword arguments of the `pipe(...)` invocation; `generator`
is the seed of the device-bound `torch.Generator`, when present. -/
structure PipeCall where
  prompt : String
  negative_prompt : Option String
  guidance_scale : ℚ
  num_inference_steps : ℤ
  generator : Option ℤ
  width : ℤ
  height : ℤ
deriving DecidableEq, Repr

/-- The exact keyword arguments `_run_generation` passes to `pipe`. -/
def pipeCallOf (req : GenerateRequest) : PipeCall :=
  { prompt := req.prompt
    negative_prompt := req.negative_prompt
    guidance_scale := req.guidance_scale
    num_inference_steps := req.num_inference_steps
    generator := req.seed
    width := req.width
    height := req.height }

/-- Python `int(float)`: truncation toward zero, on the exact rational. -/
def pyTrunc (q : ℚ) : ℤ :=
  Int.tdiv q.num (q.den : ℤ)

/-- The native response body. -/
structure GenerateResponse where
  image_base64 : String
  seed : Option ℤ
  took_ms : ℤ
deriving DecidableEq, Repr

/-- `_run_generation(req)`: ensure the pipeline is loaded, build the
generator from the seed, read `time.perf_counter()`, make exactly one
`pipe(...)` call inside `try` (any exception becomes
`HTTPException(500, str(exc))`), save/encode the image, read
`time.perf_counter()` again and report whole milliseconds.  Returns
the response-or-error, the updated global state, and the number of
pipeline invocations made. -/
def _run_generation (pipeFn : Pipeline → PipeCall → Except String Image)
    (encode : Image → String) (pipeDur encDur t0 : ℚ)
    (cfg : Config) (caps : Caps) (st : ServerState) (req : GenerateRequest) :
    Except HTTPError GenerateResponse × ServerState × ℕ :=
  let loaded := load_pipeline cfg caps st
  let started := t0
  match pipeFn loaded.1 (pipeCallOf req) with
  | .error msg => (.error ⟨500, msg⟩, loaded.2.1, 1)
  | .ok img =>
    let encoded := encode img
    let tAfterEncode := t0 + pipeDur + encDur
    let took_ms := pyTrunc ((tAfterEncode - started) * 1000)
    (.ok { image_base64 := encoded, seed := req.seed, took_ms := took_ms },
     loaded.2.1, 1)

/-- The `POST /generate` endpoint: FastAPI validates the body against
`GenerateRequest` (422 on failure, before the handler runs), then the
handler delegates to `_run_generation`. -/
def generate_endpoint (pipeFn : Pipeline → PipeCall → Except String Image)
    (encode : Image → String) (pipeDur encDur t0 : ℚ)
    (cfg : Config) (caps : Caps) (st : ServerState) (raw : RawGenerateRequest) :
    Except HTTPError GenerateResponse × ServerState × ℕ :=
  match validateGenerate cfg.max_edge raw with
  | .error e => (.error e, st, 0)
  | .ok req => _run_generation pipeFn encode pipeDur encDur t0 cfg caps st req

/-! ## OpenAI-compatible surface (app.py lines 170–218) -/

/-- A validated `OpenAIImageRequest` instance. -/
structure OpenAIImageRequest where
  prompt : String
  size : String
  n : ℤ
  response_format : String
  model : Option String
  negative_prompt : Option String
  guidance_scale : Option ℚ
  num_inference_steps : Option ℤ
  seed : Option ℤ
deriving DecidableEq, Repr

/-- The raw JSON body of a compatible request: `none` = field absent. -/
structure RawOpenAIRequest where
  prompt : Option String
  size : Option String
  n : Option ℤ
  response_format : Option String
  model : Option String
  negative_prompt : Option String
  guidance_scale : Option ℚ
  num_inference_steps : Option ℤ
  seed : Option ℤ
deriving DecidableEq, Repr

/-- `seed` check of `validateOpenAI`, then assemble the instance. -/
def validateOpenAISeed (r : RawOpenAIRequest)
    (p : String) (size : String) (k : ℤ) (rf : String) (g : Option ℚ)
    (n : Option ℤ) : Except HTTPError OpenAIImageRequest :=
  match r.seed with
  | some s =>
    if s < 0 then .error (validationError "seed: out of range")
    else
      .ok { prompt := p, size := size, n := k, response_format := rf,
            model := r.model, negative_prompt := r.negative_prompt,
            guidance_scale := g, num_inference_steps := n, seed := some s }
  | none =>
    .ok { prompt := p, size := size, n := k, response_format := rf,
          model := r.model, negative_prompt := r.negative_prompt,
          guidance_scale := g, num_inference_steps := n, seed := none }

/-- `num_inference_steps` and `seed` checks of `validateOpenAI`. -/
def validateOpenAISteps (r : RawOpenAIRequest)
    (p : String) (size : String) (k : ℤ) (rf : String) (g : Option ℚ) :
    Except HTTPError OpenAIImageRequest :=
  match r.num_inference_steps with
  | some n =>
    if n < 1 ∨ 100 < n then
      .error (validationError "num_inference_steps: out of range")
    else validateOpenAISeed r p size k rf g (some n)
  | none => validateOpenAISeed r p size k rf g none

/-- Tail of `validateOpenAI`: the optional override fields
(`guidance_scale` in `[0, 20]`, `num_inference_steps` in `[1, 100]`,
`seed ≥ 0`; `model` and `negative_prompt` are unconstrained). -/
def validateOpenAIOverrides (r : RawOpenAIRequest)
    (p : String) (size : String) (k : ℤ) (rf : String) :
    Except HTTPError OpenAIImageRequest :=
  match r.guidance_scale with
  | some g =>
    if g < 0 ∨ 20 < g then
      .error (validationError "guidance_scale: out of range")
    else validateOpenAISteps r p size k rf (some g)
  | none => validateOpenAISteps r p size k rf none

/-- pydantic validation of `OpenAIImageRequest`: `prompt` is required
(no minimum length at this schema), `size` defaults to the literal
`"512x512"`, `n` defaults to `1` and a provided `n` must satisfy
`1 ≤ n ≤ 1`, `response_format` defaults to `"b64_json"` with no
constraint, `model` is an unconstrained optional. -/
def validateOpenAI (r : RawOpenAIRequest) :
    Except HTTPError OpenAIImageRequest :=
  match r.prompt with
  | none => .error (validationError "prompt: field required")
  | some p =>
    let size := r.size.getD "512x512"
    match r.n with
    | some k =>
      if k < 1 ∨ 1 < k then .error (validationError "n: out of range")
      else validateOpenAIOverrides r p size k (r.response_format.getD "b64_json")
    | none => validateOpenAIOverrides r p size 1 (r.response_format.getD "b64_json")

/-- The body of `openai_image_endpoint` up to and including the
`GenerateRequest(...)` construction (app.py lines 195–213): schema
validation, the case-insensitive `response_format` gate (HTTP 400),
`_parse_size`, then the canonical request, whose absent overrides are
read from `GenerateRequest.model_fields[...].default`.  A pydantic
failure inside the handler (only possible for an empty prompt) is an
unhandled exception, i.e. a plain HTTP 500. -/
def normalize_openai (maxEdge : ℤ) (raw : RawOpenAIRequest) :
    Except HTTPError GenerateRequest :=
  match validateOpenAI raw with
  | .error e => .error e
  | .ok req =>
    if pyLower req.response_format ≠ "b64_json" then
      .error ⟨400, "Only response_format=b64_json is supported"⟩
    else
      match _parse_size maxEdge req.size with
      | .error e => .error e
      | .ok (w, h) =>
        match validateGenerate maxEdge
            { prompt := some req.prompt
              negative_prompt := req.negative_prompt
              guidance_scale :=
                some (req.guidance_scale.getD generateDefaults.guidance_scale)
              num_inference_steps :=
                some (req.num_inference_steps.getD generateDefaults.num_inference_steps)
              seed := req.seed
              width := some w
              height := some h } with
        | .error _ => .error ⟨500, "Internal Server Error"⟩
        | .ok q => .ok q

/-- One `{"b64_json": ...}` entry. -/
structure OpenAIImageData where
  b64_json : String
deriving DecidableEq, Repr

/-- The compatible response envelope. -/
structure OpenAIImageResponse where
  created : ℤ
  data : List OpenAIImageData
deriving DecidableEq, Repr

/-- The `POST /v1/images/generations` endpoint: schema validation and
normalization, then `_run_generation`, then the envelope (`created` is
`int(time.time())`, passed in as `epoch`).  Returns the
response-or-error, the updated global state, and the number of
pipeline invocations made. -/
def openai_image_endpoint (pipeFn : Pipeline → PipeCall → Except String Image)
    (encode : Image → String) (pipeDur encDur t0 : ℚ) (epoch : ℤ)
    (cfg : Config) (caps : Caps) (st : ServerState) (raw : RawOpenAIRequest) :
    Except HTTPError OpenAIImageResponse × ServerState × ℕ :=
  match normalize_openai cfg.max_edge raw with
  | .error e => (.error e, st, 0)
  | .ok q =>
    match _run_generation pipeFn encode pipeDur encDur t0 cfg caps st q with
    | (.error e, st', k) => (.error e, st', k)
    | (.ok resp, st', k) =>
      (.ok { created := epoch, data := [{ b64_json := resp.image_base64 }] }, st', k)

/-! ## Concrete instances used to exercise the model -/

/-- A pipeline stub that always succeeds. -/
def stubPipeOk : Pipeline → PipeCall → Except String Image :=
  fun _ _ => .ok "PNG"

/-- A pipeline stub that always raises. -/
def stubPipeFail : Pipeline → PipeCall → Except String Image :=
  fun _ _ => .error "boom"

/-- An encoding stub (identity on the opaque PNG bytes). -/
def stubEncode : Image → String :=
  fun img => img

/-- The all-default environment (`MODEL_ID` default, `MAX_EDGE=1024`). -/
def cfgDefault : Config :=
  { model_id := "stabilityai/stable-diffusion-3.5-medium"
    model_revision := none
    hf_token := none
    enable_safety_checker := false
    enable_tiling := true
    enable_attention_slicing := true
    max_edge := 1024 }

/-- A fully capable pipeline variant. -/
def capsFull : Caps :=
  { has_safety_checker := true
    has_requires_flag := true
    has_vae_tiling := true
    has_attention_slicing := true }

/-- The fresh-process state (`PIPELINE = None`). -/
def st0 : ServerState := ⟨none⟩

/-- A concrete canonical request. -/
def reqCat : GenerateRequest :=
  { prompt := "cat", negative_prompt := none, guidance_scale := 7,
    num_inference_steps := 25, seed := none, width := 512, height := 512 }

/-- A compatible request with `n=2` and everything else defaulted. -/
def rawN2 : RawOpenAIRequest :=
  { prompt := some "cat", size := none, n := some 2, response_format := none,
    model := none, negative_prompt := none, guidance_scale := none,
    num_inference_steps := none, seed := none }

/-- A compatible request whose `response_format` is `"B64_JSON"`. -/
def rawUpperFmt : RawOpenAIRequest :=
  { prompt := some "cat", size := some "512x512", n := none,
    response_format := some "B64_JSON", model := none, negative_prompt := none,
    guidance_scale := none, num_inference_steps := none, seed := none }

/-- A compatible request whose `response_format` is `"B64_json"`. -/
def rawMixedFmt : RawOpenAIRequest :=
  { prompt := some "cat", size := some "512x512", n := none,
    response_format := some "B64_json", model := none, negative_prompt := none,
    guidance_scale := none, num_inference_steps := none, seed := none }

/-- A compatible request with `response_format="url"`. -/
def rawUrlFmt : RawOpenAIRequest :=
  { prompt := some "cat", size := none, n := none,
    response_format := some "url", model := none, negative_prompt := none,
    guidance_scale := none, num_inference_steps := none, seed := none }

/-- A compatible request with every override absent. -/
def rawOpenDefault : RawOpenAIRequest :=
  { prompt := some "cat", size := none, n := none, response_format := none,
    model := none, negative_prompt := none, guidance_scale := none,
    num_inference_steps := none, seed := none }

/-- The validated form of `rawUrlFmt`. -/
def reqUrlFmt : OpenAIImageRequest :=
  { prompt := "cat", size := "512x512", n := 1, response_format := "url",
    model := none, negative_prompt := none, guidance_scale := none,
    num_inference_steps := none, seed := none }

/-- A native request carrying only a prompt. -/
def rawPromptOnly : RawGenerateRequest :=
  { prompt := some "hi", negative_prompt := none, guidance_scale := none,
    num_inference_steps := none, seed := none, width := none, height := none }

/-- The canonical request `rawPromptOnly` validates to (all defaults). -/
def reqHiDefault : GenerateRequest :=
  { prompt := "hi", negative_prompt := none, guidance_scale := 7,
    num_inference_steps := 25, seed := none, width := 512, height := 512 }

/-! ## Helper lemmas about `splitOnX` -/

theorem splitOnX_ne_nil (cs : List Char) : splitOnX cs ≠ [] := by
  induction cs with
  | nil => simp [splitOnX]
  | cons c cs ih =>
    simp only [splitOnX]
    split
    · simp
    · rcases h : splitOnX cs with _ | ⟨hd, tl⟩
      · simp
      · simp

theorem splitOnX_eq_single (cs l : List Char) :
    splitOnX cs = [l] ↔ l = cs ∧ 'x' ∉ cs := by
  induction cs generalizing l with
  | nil =>
    simp [splitOnX, eq_comm]
  | cons c cs ih =>
    by_cases hc : c = 'x'
    · subst hc
      simp only [splitOnX, if_pos rfl]
      constructor
      · intro h
        exact absurd (List.cons_eq_cons.mp h).2 (splitOnX_ne_nil cs)
      · rintro ⟨-, hmem⟩
        exact absurd (List.mem_cons_self _ _) hmem
    · simp only [splitOnX, if_neg hc]
      rcases h : splitOnX cs with _ | ⟨hd, tl⟩
      · exact absurd h (splitOnX_ne_nil cs)
      · constructor
        · intro hl
          rcases List.cons_eq_cons.mp hl with ⟨h1, h2⟩
          subst h2
          have := (ih hd).mp h
          rcases this with ⟨h3, h4⟩
          subst h3
          refine ⟨h1.symm, ?_⟩
          intro hmem
          rcases List.mem_cons.mp hmem with h5 | h5
          · exact hc h5.symm
          · exact h4 h5
        · rintro ⟨hl, hmem⟩
          subst hl
          have h4 : 'x' ∉ cs := fun hm => hmem (List.mem_cons_of_mem _ hm)
          have : splitOnX cs = [cs] := (ih cs).mpr ⟨rfl, h4⟩
          rw [this] at h
          rcases List.cons_eq_cons.mp h with ⟨h5, h6⟩
          subst h5
          subst h6
          rfl

theorem splitOnX_eq_pair (cs a b : List Char) :
    splitOnX cs = [a, b] ↔ cs = a ++ 'x' :: b ∧ 'x' ∉ a ∧ 'x' ∉ b := by
  induction cs generalizing a with
  | nil =>
    constructor
    · intro h
      simp [splitOnX] at h
    · rintro ⟨h, -, -⟩
      exact absurd h.symm (List.append_ne_nil_of_right_ne_nil a (List.cons_ne_nil _ _))
  | cons c cs ih =>
    by_cases hc : c = 'x'
    · subst hc
      simp only [splitOnX, if_pos rfl]
      constructor
      · intro h
        rcases List.cons_eq_cons.mp h with ⟨h1, h2⟩
        subst h1
        rcases (splitOnX_eq_single cs b).mp h2 with ⟨h3, h4⟩
        subst h3
        exact ⟨rfl, by simp, h4⟩
      · rintro ⟨hdec, hna, hnb⟩
        rcases a with _ | ⟨a0, a'⟩
        · simp only [List.nil_append] at hdec
          rcases List.cons_eq_cons.mp hdec with ⟨-, h2⟩
          subst h2
          rw [(splitOnX_eq_single cs cs).mpr ⟨rfl, hnb⟩]
          simp
        · rcases List.cons_eq_cons.mp hdec with ⟨h1, -⟩
          exact absurd (List.mem_cons_self a0 a') (h1 ▸ hna)
    · simp only [splitOnX, if_neg hc]
      rcases h : splitOnX cs with _ | ⟨hd, tl⟩
      · exact absurd h (splitOnX_ne_nil cs)
      · constructor
        · intro hl
          rcases List.cons_eq_cons.mp hl with ⟨h1, h2⟩
          subst h1
          have hpair : splitOnX cs = [hd, b] := by rw [h, h2]
          rcases (ih hd).mp hpair with ⟨h3, h4, h5⟩
          subst h3
          refine ⟨rfl, ?_, h5⟩
          intro hmem
          rcases List.mem_cons.mp hmem with h6 | h6
          · exact hc h6.symm
          · exact h4 h6
        · rintro ⟨hdec, hna, hnb⟩
          rcases a with _ | ⟨a0, a'⟩
          · rcases List.cons_eq_cons.mp hdec with ⟨h1, -⟩
            exact absurd h1 hc
          · rcases List.cons_eq_cons.mp hdec with ⟨h1, h2⟩
            subst h1
            have hna' : 'x' ∉ a' := fun hm => hna (List.mem_cons_of_mem _ hm)
            have hpair : splitOnX cs = [a', b] := (ih a').mpr ⟨h2, hna', hnb⟩
            rw [hpair] at h
            rcases List.cons_eq_cons.mp h with ⟨h3, h4⟩
            subst h3
            rw [← h4]

theorem splitOnX_length (cs : List Char) :
    (splitOnX cs).length = cs.count 'x' + 1 := by
  induction cs with
  | nil => simp [splitOnX]
  | cons c cs ih =>
    by_cases hc : c = 'x'
    · subst hc
      have hs : splitOnX ('x' :: cs) = [] :: splitOnX cs := by simp [splitOnX]
      rw [hs, List.length_cons, ih, List.count_cons_self]
    · rcases h : splitOnX cs with _ | ⟨hd, tl⟩
      · exact absurd h (splitOnX_ne_nil cs)
      · have hcount : (c :: cs).count 'x' = cs.count 'x' := by
          simp [List.count_cons, hc]
        rw [hcount]
        simp only [splitOnX, if_neg hc, h]
        rw [h] at ih
        simp only [List.length_cons] at ih ⊢
        omega

/-! ## Characterization of `_parse_size` -/

theorem parse_size_eq_of_pair (maxEdge : ℤ) (size : String) (ws hs : List Char)
    (hsp : splitOnX (pyLower size).toList = [ws, hs]) :
    _parse_size maxEdge size =
      match pyIntOfChars ws, pyIntOfChars hs with
      | some w, some h =>
        if w < 256 ∨ h < 256 ∨ maxEdge < w ∨ maxEdge < h then
          Except.error (sizeBoundError maxEdge)
        else Except.ok (w, h)
      | some _, none => Except.error sizeFormatError
      | none, _ => Except.error sizeFormatError := by
  unfold _parse_size
  rw [hsp]

theorem parse_size_format_of_shape (maxEdge : ℤ) (size : String)
    (hshape : ∀ ws hs : List Char, splitOnX (pyLower size).toList ≠ [ws, hs]) :
    _parse_size maxEdge size = .error sizeFormatError := by
  unfold _parse_size
  rcases hsp : splitOnX (pyLower size).toList with _ | ⟨ws, _ | ⟨hs, _ | ⟨c, rest⟩⟩⟩
  · exact absurd hsp (splitOnX_ne_nil _)
  · rfl
  · exact absurd hsp (hshape ws hs)
  · rfl

theorem parse_size_ok_iff (maxEdge : ℤ) (size : String) (w h : ℤ) :
    _parse_size maxEdge size = .ok (w, h) ↔
      ∃ ws hs : List Char,
        (pyLower size).toList = ws ++ 'x' :: hs ∧ 'x' ∉ ws ∧ 'x' ∉ hs ∧
        pyIntOfChars ws = some w ∧ pyIntOfChars hs = some h ∧
        256 ≤ w ∧ w ≤ maxEdge ∧ 256 ≤ h ∧ h ≤ maxEdge := by
  constructor
  · intro hok
    rcases hsp : splitOnX (pyLower size).toList with _ | ⟨ws, _ | ⟨hs, _ | ⟨c, rest⟩⟩⟩
    · exact absurd hsp (splitOnX_ne_nil _)
    · rw [parse_size_format_of_shape maxEdge size (by rw [hsp]; intro a b hab; simp at hab)] at hok
      exact absurd hok (by simp)
    · rw [parse_size_eq_of_pair maxEdge size ws hs hsp] at hok
      rcases hw : pyIntOfChars ws with _ | w'
      · rw [hw] at hok
        exact absurd hok (by simp)
      · rcases hh : pyIntOfChars hs with _ | h'
        · rw [hw, hh] at hok
          exact absurd hok (by simp)
        · rw [hw, hh] at hok
          dsimp only at hok
          by_cases hcond : w' < 256 ∨ h' < 256 ∨ maxEdge < w' ∨ maxEdge < h'
          · rw [if_pos hcond] at hok
            exact absurd hok (by simp)
          · rw [if_neg hcond] at hok
            have hpr : (w', h') = (w, h) := by injection hok
            have hw1 : w' = w := congrArg Prod.fst hpr
            have hh1 : h' = h := congrArg Prod.snd hpr
            subst hw1
            subst hh1
            rcases (splitOnX_eq_pair ((pyLower size).toList) ws hs).mp hsp with
              ⟨hdec, hxw, hxh⟩
            exact ⟨ws, hs, hdec, hxw, hxh, hw, hh, by omega, by omega, by omega,
              by omega⟩
    · rw [parse_size_format_of_shape maxEdge size (by rw [hsp]; intro a b hab; simp at hab)] at hok
      exact absurd hok (by simp)
  · rintro ⟨ws, hs, hdec, hxw, hxh, hpw, hph, h1, h2, h3, h4⟩
    have hsp := (splitOnX_eq_pair ((pyLower size).toList) ws hs).mpr ⟨hdec, hxw, hxh⟩
    rw [parse_size_eq_of_pair maxEdge size ws hs hsp, hpw, hph]
    dsimp only
    rw [if_neg (by omega)]

theorem parse_size_format_of_no_parse (maxEdge : ℤ) (size : String)
    (hno : ¬ ∃ (ws hs : List Char) (w h : ℤ),
        (pyLower size).toList = ws ++ 'x' :: hs ∧ 'x' ∉ ws ∧ 'x' ∉ hs ∧
        pyIntOfChars ws = some w ∧ pyIntOfChars hs = some h) :
    _parse_size maxEdge size = .error sizeFormatError := by
  rcases hsp : splitOnX (pyLower size).toList with _ | ⟨ws, _ | ⟨hs, _ | ⟨c, rest⟩⟩⟩
  · exact absurd hsp (splitOnX_ne_nil _)
  · exact parse_size_format_of_shape maxEdge size (by rw [hsp]; intro a b hab; simp at hab)
  · rw [parse_size_eq_of_pair maxEdge size ws hs hsp]
    rcases hw : pyIntOfChars ws with _ | w'
    · rfl
    · rcases hh : pyIntOfChars hs with _ | h'
      · rfl
      · exfalso
        rcases (splitOnX_eq_pair ((pyLower size).toList) ws hs).mp hsp with
          ⟨hdec, hxw, hxh⟩
        exact hno ⟨ws, hs, w', h', hdec, hxw, hxh, hw, hh⟩
  · exact parse_size_format_of_shape maxEdge size (by rw [hsp]; intro a b hab; simp at hab)

theorem parse_size_bound_error (maxEdge : ℤ) (size : String) (ws hs : List Char)
    (w h : ℤ)
    (hdec : (pyLower size).toList = ws ++ 'x' :: hs) (hxw : 'x' ∉ ws)
    (hxh : 'x' ∉ hs) (hpw : pyIntOfChars ws = some w)
    (hph : pyIntOfChars hs = some h)
    (hbad : w < 256 ∨ h < 256 ∨ maxEdge < w ∨ maxEdge < h) :
    _parse_size maxEdge size = .error (sizeBoundError maxEdge) := by
  have hsp := (splitOnX_eq_pair ((pyLower size).toList) ws hs).mpr ⟨hdec, hxw, hxh⟩
  rw [parse_size_eq_of_pair maxEdge size ws hs hsp, hpw, hph]
  dsimp only
  rw [if_pos hbad]

/-! ## Lemmas about the pipeline singleton -/

theorem load_pipeline_of_some (cfg : Config) (caps : Caps) (st : ServerState)
    (p : Pipeline) (h : st.pipeline = some p) :
    load_pipeline cfg caps st = (p, st, false) := by
  unfold load_pipeline
  rw [h]

theorem load_pipeline_state (cfg : Config) (caps : Caps) (st : ServerState) :
    (load_pipeline cfg caps st).2.1.pipeline =
      some (load_pipeline cfg caps st).1 := by
  unfold load_pipeline
  rcases h : st.pipeline with _ | p
  · rfl
  · dsimp only
    exact h

theorem loadConstructionCount_of_some (cfg : Config) (caps : Caps) (n : ℕ)
    (st : ServerState) (p : Pipeline) (h : st.pipeline = some p) :
    loadConstructionCount cfg caps n st = 0 := by
  induction n with
  | zero => rfl
  | succ n ih =>
    unfold loadConstructionCount
    rw [load_pipeline_of_some cfg caps st p h]
    simpa using ih

theorem loadConstructionCount_le_one (cfg : Config) (caps : Caps) (n : ℕ)
    (st : ServerState) : loadConstructionCount cfg caps n st ≤ 1 := by
  cases n with
  | zero => simp [loadConstructionCount]
  | succ n =>
    unfold loadConstructionCount
    rcases h : st.pipeline with _ | p
    · have hload : load_pipeline cfg caps st =
          (buildPipeline cfg caps, ⟨some (buildPipeline cfg caps)⟩, true) := by
        unfold load_pipeline
        rw [h]
      rw [hload]
      dsimp only
      rw [loadConstructionCount_of_some cfg caps n _ (buildPipeline cfg caps) rfl]
      simp
    · rw [load_pipeline_of_some cfg caps st p h]
      dsimp only
      rw [loadConstructionCount_of_some cfg caps n st p h]
      simp

/-! ## Bounds carried by validated requests -/

theorem validateGenerateHeight_ok_bounds (maxEdge : ℤ) (r : RawGenerateRequest)
    (p : String) (g : ℚ) (n : ℤ) (s : Option ℤ) (w : ℤ) (q : GenerateRequest)
    (hme : 512 ≤ maxEdge) (hw1 : 256 ≤ w) (hw2 : w ≤ maxEdge)
    (h : validateGenerateHeight maxEdge r p g n s w = .ok q) :
    256 ≤ q.width ∧ q.width ≤ maxEdge ∧ 256 ≤ q.height ∧ q.height ≤ maxEdge := by
  unfold validateGenerateHeight at h
  rcases hh : r.height with _ | hgt
  · rw [hh] at h
    dsimp only at h
    injection h with h2
    subst h2
    refine ⟨hw1, hw2, ?_, ?_⟩
    · show (256 : ℤ) ≤ generateDefaults.height
      decide
    · show generateDefaults.height ≤ maxEdge
      exact hme
  · rw [hh] at h
    dsimp only at h
    split at h
    · exact absurd h (by simp)
    · rename_i hcond
      injection h with h2
      subst h2
      refine ⟨hw1, hw2, ?_, ?_⟩
      · show (256 : ℤ) ≤ hgt
        omega
      · show hgt ≤ maxEdge
        omega

theorem validateGenerateDims_ok_bounds (maxEdge : ℤ) (r : RawGenerateRequest)
    (p : String) (g : ℚ) (n : ℤ) (s : Option ℤ) (q : GenerateRequest)
    (hme : 512 ≤ maxEdge)
    (h : validateGenerateDims maxEdge r p g n s = .ok q) :
    256 ≤ q.width ∧ q.width ≤ maxEdge ∧ 256 ≤ q.height ∧ q.height ≤ maxEdge := by
  unfold validateGenerateDims at h
  rcases hw : r.width with _ | w
  · rw [hw] at h
    dsimp only at h
    exact validateGenerateHeight_ok_bounds maxEdge r p g n s
      generateDefaults.width q hme (by decide) hme h
  · rw [hw] at h
    dsimp only at h
    split at h
    · exact absurd h (by simp)
    · rename_i hcond
      exact validateGenerateHeight_ok_bounds maxEdge r p g n s w q hme
        (by omega) (by omega) h

theorem validateGenerateSeed_ok_bounds (maxEdge : ℤ) (r : RawGenerateRequest)
    (p : String) (g : ℚ) (n : ℤ) (q : GenerateRequest) (hme : 512 ≤ maxEdge)
    (h : validateGenerateSeed maxEdge r p g n = .ok q) :
    256 ≤ q.width ∧ q.width ≤ maxEdge ∧ 256 ≤ q.height ∧ q.height ≤ maxEdge := by
  unfold validateGenerateSeed at h
  rcases hs : r.seed with _ | s
  · rw [hs] at h
    dsimp only at h
    exact validateGenerateDims_ok_bounds maxEdge r p g n none q hme h
  · rw [hs] at h
    dsimp only at h
    split at h
    · exact absurd h (by simp)
    · exact validateGenerateDims_ok_bounds maxEdge r p g n (some s) q hme h

theorem validateGenerateSteps_ok_bounds (maxEdge : ℤ) (r : RawGenerateRequest)
    (p : String) (g : ℚ) (q : GenerateRequest) (hme : 512 ≤ maxEdge)
    (h : validateGenerateSteps maxEdge r p g = .ok q) :
    256 ≤ q.width ∧ q.width ≤ maxEdge ∧ 256 ≤ q.height ∧ q.height ≤ maxEdge := by
  unfold validateGenerateSteps at h
  rcases hn : r.num_inference_steps with _ | n
  · rw [hn] at h
    dsimp only at h
    exact validateGenerateSeed_ok_bounds maxEdge r p g _ q hme h
  · rw [hn] at h
    dsimp only at h
    split at h
    · exact absurd h (by simp)
    · exact validateGenerateSeed_ok_bounds maxEdge r p g n q hme h

theorem validateGenerate_ok_bounds (maxEdge : ℤ) (r : RawGenerateRequest)
    (q : GenerateRequest) (hme : 512 ≤ maxEdge)
    (h : validateGenerate maxEdge r = .ok q) :
    256 ≤ q.width ∧ q.width ≤ maxEdge ∧ 256 ≤ q.height ∧ q.height ≤ maxEdge := by
  unfold validateGenerate at h
  rcases hp : r.prompt with _ | p
  · rw [hp] at h
    dsimp only at h
    exact absurd h (by simp)
  · rw [hp] at h
    dsimp only at h
    split at h
    · exact absurd h (by simp)
    · rcases hg : r.guidance_scale with _ | g
      · rw [hg] at h
        dsimp only at h
        exact validateGenerateSteps_ok_bounds maxEdge r p _ q hme h
      · rw [hg] at h
        dsimp only at h
        split at h
        · exact absurd h (by simp)
        · exact validateGenerateSteps_ok_bounds maxEdge r p g q hme h

theorem normalize_openai_ok_bounds (maxEdge : ℤ) (raw : RawOpenAIRequest)
    (q : GenerateRequest) (hme : 512 ≤ maxEdge)
    (h : normalize_openai maxEdge raw = .ok q) :
    256 ≤ q.width ∧ q.width ≤ maxEdge ∧ 256 ≤ q.height ∧ q.height ≤ maxEdge := by
  unfold normalize_openai at h
  rcases hv : validateOpenAI raw with e | req
  · rw [hv] at h
    dsimp only at h
    exact absurd h (by simp)
  · rw [hv] at h
    dsimp only at h
    split at h
    · exact absurd h (by simp)
    · rcases hps : _parse_size maxEdge req.size with e | ⟨w1, h1⟩
      · rw [hps] at h
        dsimp only at h
        exact absurd h (by simp)
      · rw [hps] at h
        dsimp only at h
        rcases hvg : validateGenerate maxEdge
            { prompt := some req.prompt
              negative_prompt := req.negative_prompt
              guidance_scale :=
                some (req.guidance_scale.getD generateDefaults.guidance_scale)
              num_inference_steps :=
                some (req.num_inference_steps.getD
                  generateDefaults.num_inference_steps)
              seed := req.seed
              width := some w1
              height := some h1 } with e | q1
        · rw [hvg] at h
          dsimp only at h
          exact absurd h (by simp)
        · rw [hvg] at h
          dsimp only at h
          injection h with h2
          subst h2
          exact validateGenerate_ok_bounds maxEdge _ q1 hme hvg

/-- Whole-millisecond truncation of a non-negative duration is
non-negative. -/
theorem pyTrunc_nonneg (q : ℚ) (h : 0 ≤ q) : 0 ≤ pyTrunc q := by
  unfold pyTrunc
  exact Int.tdiv_nonneg (Rat.num_nonneg.mpr h) (by positivity)

/-- On an exact whole number of milliseconds the truncation is the
identity. -/
theorem pyTrunc_intCast (n : ℤ) : pyTrunc ((n : ℚ)) = n := by
  unfold pyTrunc
  rw [Rat.num_intCast, Rat.den_intCast]
  simp [Int.tdiv_one]

/-! ## Field passthrough of the OpenAI-compatible validator -/

theorem validateOpenAISeed_ok_spec (r : RawOpenAIRequest) (p size : String)
    (k : ℤ) (rf : String) (g : Option ℚ) (n : Option ℤ)
    (req : OpenAIImageRequest)
    (h : validateOpenAISeed r p size k rf g n = .ok req) :
    req = { prompt := p, size := size, n := k, response_format := rf,
            model := r.model, negative_prompt := r.negative_prompt,
            guidance_scale := g, num_inference_steps := n,
            seed := r.seed } ∧
    ∀ s, r.seed = some s → 0 ≤ s := by
  unfold validateOpenAISeed at h
  rcases hs : r.seed with _ | s
  · rw [hs] at h
    dsimp only at h
    injection h with h2
    subst h2
    refine ⟨rfl, ?_⟩
    intro s hs2
    exact absurd hs2 (by simp)
  · rw [hs] at h
    dsimp only at h
    split at h
    · exact absurd h (by simp)
    · rename_i hcond
      injection h with h2
      subst h2
      refine ⟨rfl, ?_⟩
      intro s2 hs2
      injection hs2 with he
      omega

theorem validateOpenAISteps_ok_spec (r : RawOpenAIRequest) (p size : String)
    (k : ℤ) (rf : String) (g : Option ℚ) (req : OpenAIImageRequest)
    (h : validateOpenAISteps r p size k rf g = .ok req) :
    req = { prompt := p, size := size, n := k, response_format := rf,
            model := r.model, negative_prompt := r.negative_prompt,
            guidance_scale := g,
            num_inference_steps := r.num_inference_steps,
            seed := r.seed } ∧
    ∀ s, r.seed = some s → 0 ≤ s := by
  unfold validateOpenAISteps at h
  rcases hn : r.num_inference_steps with _ | n
  · rw [hn] at h
    dsimp only at h
    obtain ⟨hr, hsd⟩ := validateOpenAISeed_ok_spec r p size k rf g none req h
    refine ⟨?_, hsd⟩
    rw [hr]
  · rw [hn] at h
    dsimp only at h
    split at h
    · exact absurd h (by simp)
    · obtain ⟨hr, hsd⟩ :=
        validateOpenAISeed_ok_spec r p size k rf g (some n) req h
      refine ⟨?_, hsd⟩
      rw [hr]

theorem validateOpenAIOverrides_ok_spec (r : RawOpenAIRequest)
    (p size : String) (k : ℤ) (rf : String) (req : OpenAIImageRequest)
    (h : validateOpenAIOverrides r p size k rf = .ok req) :
    req = { prompt := p, size := size, n := k, response_format := rf,
            model := r.model, negative_prompt := r.negative_prompt,
            guidance_scale := r.guidance_scale,
            num_inference_steps := r.num_inference_steps,
            seed := r.seed } ∧
    ∀ s, r.seed = some s → 0 ≤ s := by
  unfold validateOpenAIOverrides at h
  rcases hg : r.guidance_scale with _ | g
  · rw [hg] at h
    dsimp only at h
    obtain ⟨hr, hsd⟩ := validateOpenAISteps_ok_spec r p size k rf none req h
    refine ⟨?_, hsd⟩
    rw [hr]
  · rw [hg] at h
    dsimp only at h
    split at h
    · exact absurd h (by simp)
    · obtain ⟨hr, hsd⟩ :=
        validateOpenAISteps_ok_spec r p size k rf (some g) req h
      refine ⟨?_, hsd⟩
      rw [hr]

theorem validateOpenAI_ok_spec (raw : RawOpenAIRequest)
    (req : OpenAIImageRequest) (h : validateOpenAI raw = .ok req) :
    raw.prompt = some req.prompt ∧
    req.size = raw.size.getD "512x512" ∧
    req.response_format = raw.response_format.getD "b64_json" ∧
    req.model = raw.model ∧
    req.negative_prompt = raw.negative_prompt ∧
    req.guidance_scale = raw.guidance_scale ∧
    req.num_inference_steps = raw.num_inference_steps ∧
    req.seed = raw.seed ∧
    (∀ s, req.seed = some s → 0 ≤ s) := by
  unfold validateOpenAI at h
  rcases hp : raw.prompt with _ | p
  · rw [hp] at h
    dsimp only at h
    exact absurd h (by simp)
  · rw [hp] at h
    dsimp only at h
    rcases hn : raw.n with _ | k
    · rw [hn] at h
      dsimp only at h
      obtain ⟨hr, hsd⟩ := validateOpenAIOverrides_ok_spec raw p _ 1 _ req h
      subst hr
      exact ⟨rfl, rfl, rfl, rfl, rfl, rfl, rfl, rfl, hsd⟩
    · rw [hn] at h
      dsimp only at h
      split at h
      · exact absurd h (by simp)
      · obtain ⟨hr, hsd⟩ := validateOpenAIOverrides_ok_spec raw p _ k _ req h
        subst hr
        exact ⟨rfl, rfl, rfl, rfl, rfl, rfl, rfl, rfl, hsd⟩

/-! ## Errors propagate to the endpoints unchanged -/

theorem normalize_error_of_validate_error (maxEdge : ℤ)
    (raw : RawOpenAIRequest) (err : HTTPError)
    (h : validateOpenAI raw = .error err) :
    normalize_openai maxEdge raw = .error err := by
  unfold normalize_openai
  rw [h]

theorem openai_endpoint_of_normalize_error
    (pipeFn : Pipeline → PipeCall → Except String Image)
    (encode : Image → String) (pipeDur encDur t0 : ℚ) (epoch : ℤ)
    (cfg : Config) (caps : Caps) (st : ServerState) (raw : RawOpenAIRequest)
    (err : HTTPError) (h : normalize_openai cfg.max_edge raw = .error err) :
    openai_image_endpoint pipeFn encode pipeDur encDur t0 epoch cfg caps st
        raw =
      (.error err, st, 0) := by
  unfold openai_image_endpoint
  rw [h]

/-! ## Evaluation helpers for the defaulted paths -/

theorem parse_size_512 (maxEdge : ℤ) (w1 h1 : ℤ)
    (h : _parse_size maxEdge "512x512" = .ok (w1, h1)) :
    w1 = 512 ∧ h1 = 512 ∧ 512 ≤ maxEdge := by
  have hsp : splitOnX (pyLower "512x512").toList =
      [['5', '1', '2'], ['5', '1', '2']] := by decide
  rw [parse_size_eq_of_pair maxEdge "512x512" _ _ hsp] at h
  rw [(by decide : pyIntOfChars ['5', '1', '2'] = some (512 : ℤ))] at h
  dsimp only at h
  split at h
  · exact absurd h (by simp)
  · rename_i hcond
    have hpr : ((512 : ℤ), (512 : ℤ)) = (w1, h1) := by injection h
    have h1' := congrArg Prod.fst hpr
    have h2' := congrArg Prod.snd hpr
    dsimp only at h1' h2'
    omega

theorem validateGenerate_defaults_ok (maxEdge : ℤ) (p : String)
    (neg : Option String) (sd : Option ℤ) (q1 : GenerateRequest)
    (h : validateGenerate maxEdge
        { prompt := some p, negative_prompt := neg,
          guidance_scale := some generateDefaults.guidance_scale,
          num_inference_steps := some generateDefaults.num_inference_steps,
          seed := sd, width := some 512, height := some 512 } = .ok q1) :
    q1 = { prompt := p, negative_prompt := neg,
           guidance_scale := generateDefaults.guidance_scale,
           num_inference_steps := generateDefaults.num_inference_steps,
           seed := sd, width := 512, height := 512 } ∧
    validateGenerate maxEdge
        { prompt := some p, negative_prompt := neg, guidance_scale := none,
          num_inference_steps := none, seed := sd, width := none,
          height := none } = .ok q1 := by
  unfold validateGenerate at h
  dsimp only at h
  split at h
  · exact absurd h (by simp)
  · rename_i hplen
    rw [if_neg (by decide :
        ¬(generateDefaults.guidance_scale < 0 ∨
          20 < generateDefaults.guidance_scale))] at h
    unfold validateGenerateSteps at h
    dsimp only at h
    rw [if_neg (by decide :
        ¬(generateDefaults.num_inference_steps < 1 ∨
          100 < generateDefaults.num_inference_steps))] at h
    unfold validateGenerateSeed at h
    dsimp only at h
    rcases hsd : sd with _ | s
    · rw [hsd] at h
      dsimp only at h
      unfold validateGenerateDims at h
      dsimp only at h
      split at h
      · exact absurd h (by simp)
      · rename_i hwc
        unfold validateGenerateHeight at h
        dsimp only at h
        split at h
        · exact absurd h (by simp)
        · rename_i hhc
          injection h with h2
          subst h2
          refine ⟨rfl, ?_⟩
          unfold validateGenerate
          dsimp only
          rw [if_neg hplen]
          unfold validateGenerateSteps validateGenerateSeed
          dsimp only
          unfold validateGenerateDims validateGenerateHeight
          dsimp only
          rfl
    · rw [hsd] at h
      dsimp only at h
      split at h
      · exact absurd h (by simp)
      · rename_i hsc
        unfold validateGenerateDims at h
        dsimp only at h
        split at h
        · exact absurd h (by simp)
        · rename_i hwc
          unfold validateGenerateHeight at h
          dsimp only at h
          split at h
          · exact absurd h (by simp)
          · rename_i hhc
            injection h with h2
            subst h2
            refine ⟨rfl, ?_⟩
            unfold validateGenerate
            dsimp only
            rw [if_neg hplen]
            unfold validateGenerateSteps validateGenerateSeed
            dsimp only
            rw [if_neg hsc]
            unfold validateGenerateDims validateGenerateHeight
            dsimp only
            rfl

/-! ## The `model` field is never read after validation -/

theorem normalize_openai_model_invariant (maxEdge : ℤ)
    (raw : RawOpenAIRequest) (m1 m2 : Option String) :
    normalize_openai maxEdge { raw with model := m1 } =
      normalize_openai maxEdge { raw with model := m2 } := by
  rcases raw with ⟨p?, sz?, n?, rf?, mdl, neg, g?, st?, sd?⟩
  unfold normalize_openai validateOpenAI validateOpenAIOverrides
    validateOpenAISteps validateOpenAISeed
  dsimp only
  cases p? <;> cases n? <;> cases g? <;> cases st? <;> cases sd? <;>
    dsimp only <;>
    first
      | rfl
      | (split_ifs <;> rfl)

/-! ## Claim theorems -/

/-- C1: size parsing splits the lowercased size string on the literal
`'x'` (hence case-insensitively) and parses both halves as Python
integers; a split/parse failure is rejected with the HTTP 400
`"size must look like 512x512"` format error (e.g. `"abcx512"`); a
parsed pair with a dimension outside `[256, MAX_EDGE]` is rejected
with the HTTP 400 error naming the bound (e.g. `"4096x512"` with
`MAX_EDGE = 1024`); otherwise the parsed `(width, height)` pair is
returned. -/
theorem size_string_parsing_contract :
    (∀ (maxEdge : ℤ) (size : String) (w h : ℤ),
        _parse_size maxEdge size = .ok (w, h) ↔
          ∃ ws hs : List Char,
            (pyLower size).toList = ws ++ 'x' :: hs ∧ 'x' ∉ ws ∧ 'x' ∉ hs ∧
            pyIntOfChars ws = some w ∧ pyIntOfChars hs = some h ∧
            256 ≤ w ∧ w ≤ maxEdge ∧ 256 ≤ h ∧ h ≤ maxEdge) ∧
    (∀ (maxEdge : ℤ) (size : String),
        (¬ ∃ (ws hs : List Char) (w h : ℤ),
            (pyLower size).toList = ws ++ 'x' :: hs ∧ 'x' ∉ ws ∧ 'x' ∉ hs ∧
            pyIntOfChars ws = some w ∧ pyIntOfChars hs = some h) →
          _parse_size maxEdge size = .error sizeFormatError) ∧
    (∀ (maxEdge : ℤ) (size : String) (ws hs : List Char) (w h : ℤ),
        (pyLower size).toList = ws ++ 'x' :: hs → 'x' ∉ ws → 'x' ∉ hs →
        pyIntOfChars ws = some w → pyIntOfChars hs = some h →
        (w < 256 ∨ h < 256 ∨ maxEdge < w ∨ maxEdge < h) →
          _parse_size maxEdge size = .error (sizeBoundError maxEdge)) ∧
    _parse_size 1024 "abcx512" = .error sizeFormatError ∧
    _parse_size 1024 "4096x512" = .error (sizeBoundError 1024) :=
  ⟨parse_size_ok_iff, parse_size_format_of_no_parse, parse_size_bound_error,
    by decide, by decide⟩

/-- Witness for C1: a concrete uppercase-separator size string parses
through the contract. -/
theorem size_string_parsing_contract_witness :
    _parse_size 1024 "768X512" = .ok (768, 512) :=
  (size_string_parsing_contract.1 1024 "768X512" 768 512).mpr
    ⟨['7', '6', '8'], ['5', '1', '2'], by decide, by decide, by decide,
      by decide, by decide, by decide, by decide, by decide, by decide⟩

/-- C2: `load_pipeline` is idempotent — once a call has installed the
pipeline, every later call returns the same handle and the same state
with the construction flag `false`, and over any sequence of `n`
consecutive calls the construction branch (weight loading,
safety-checker removal, device binding, tiling and attention-slicing
enablement) runs at most once. -/
theorem load_pipeline_idempotent :
    ∀ (cfg : Config) (caps : Caps) (st : ServerState) (n : ℕ),
      load_pipeline cfg caps (load_pipeline cfg caps st).2.1 =
        ((load_pipeline cfg caps st).1, (load_pipeline cfg caps st).2.1,
          false) ∧
      loadConstructionCount cfg caps n st ≤ 1 := by
  intro cfg caps st n
  refine ⟨?_, loadConstructionCount_le_one cfg caps n st⟩
  exact load_pipeline_of_some cfg caps _ _ (load_pipeline_state cfg caps st)

/-- C10: a size string whose lowercasing does not contain exactly one
`'x'` (e.g. `"512x512x512"` or `"512"`) makes the two-way
split-and-unpack fail, so `_parse_size` rejects it with the HTTP 400
`"size must look like 512x512"` format error — no prefix of the
string is silently used. -/
theorem wrong_separator_count_is_format_error :
    ∀ (maxEdge : ℤ) (size : String),
      (pyLower size).toList.count 'x' ≠ 1 →
      _parse_size maxEdge size = .error sizeFormatError := by
  intro maxEdge size hcount
  apply parse_size_format_of_shape
  intro ws hs hsp
  have hlen := splitOnX_length (pyLower size).toList
  rw [hsp] at hlen
  simp only [List.length_cons, List.length_nil] at hlen
  omega

/-- Witness for C10: `"512x512x512"` contains two `'x'` and is
rejected with the format error. -/
theorem wrong_separator_count_is_format_error_witness :
    ((pyLower "512x512x512").toList.count 'x' ≠ 1) ∧
      _parse_size 1024 "512x512x512" = .error sizeFormatError :=
  ⟨by decide,
    wrong_separator_count_is_format_error 1024 "512x512x512" (by decide)⟩

/-- Counterexample for C3: with `MAX_EDGE = 300`, a native request
that omits `width`/`height` validates successfully (pydantic does not
re-validate declared defaults), producing a canonical request with
`width = 512 > 300` that reaches the executor. -/
theorem default_width_escapes_small_max_edge :
    validateGenerate 300 rawPromptOnly = .ok reqHiDefault ∧
      reqHiDefault.width = 512 ∧ ¬ ((512 : ℤ) ≤ 300) :=
  ⟨by decide, by decide, by decide⟩

/-- C3 (amended): provided the native defaults fit the configured
bound (`512 ≤ MAX_EDGE`, true of the default `MAX_EDGE = 1024`), every
canonical request produced by native schema validation or by
OpenAI-compatible normalization has `width` and `height` in
`[256, MAX_EDGE]`, and a rejected request reaches the executor with
zero pipeline invocations. -/
theorem executor_requests_bounded :
    ∀ (maxEdge : ℤ), 512 ≤ maxEdge →
      (∀ (raw : RawGenerateRequest) (q : GenerateRequest),
          validateGenerate maxEdge raw = .ok q →
          256 ≤ q.width ∧ q.width ≤ maxEdge ∧
            256 ≤ q.height ∧ q.height ≤ maxEdge) ∧
      (∀ (raw : RawOpenAIRequest) (q : GenerateRequest),
          normalize_openai maxEdge raw = .ok q →
          256 ≤ q.width ∧ q.width ≤ maxEdge ∧
            256 ≤ q.height ∧ q.height ≤ maxEdge) ∧
      (∀ (pipeFn : Pipeline → PipeCall → Except String Image)
          (encode : Image → String) (pipeDur encDur t0 : ℚ) (cfg : Config)
          (caps : Caps) (st : ServerState) (raw : RawGenerateRequest)
          (e : HTTPError),
          cfg.max_edge = maxEdge → validateGenerate maxEdge raw = .error e →
          generate_endpoint pipeFn encode pipeDur encDur t0 cfg caps st raw =
            (.error e, st, 0)) ∧
      (∀ (pipeFn : Pipeline → PipeCall → Except String Image)
          (encode : Image → String) (pipeDur encDur t0 : ℚ) (epoch : ℤ)
          (cfg : Config) (caps : Caps) (st : ServerState)
          (raw : RawOpenAIRequest) (e : HTTPError),
          cfg.max_edge = maxEdge → normalize_openai maxEdge raw = .error e →
          openai_image_endpoint pipeFn encode pipeDur encDur t0 epoch cfg caps
              st raw =
            (.error e, st, 0)) := by
  intro maxEdge hme
  refine ⟨fun raw q h => validateGenerate_ok_bounds maxEdge raw q hme h,
    fun raw q h => normalize_openai_ok_bounds maxEdge raw q hme h, ?_, ?_⟩
  · intro pipeFn encode pipeDur encDur t0 cfg caps st raw e hcfg hval
    unfold generate_endpoint
    rw [hcfg, hval]
  · intro pipeFn encode pipeDur encDur t0 epoch cfg caps st raw e hcfg hval
    unfold openai_image_endpoint
    rw [hcfg, hval]

/-- Witness for C3 (amended): the default configuration satisfies the
premise and bounds the all-default canonical request. -/
theorem executor_requests_bounded_witness :
    (512 : ℤ) ≤ 1024 ∧ validateGenerate 1024 rawPromptOnly = .ok reqHiDefault ∧
      (256 ≤ reqHiDefault.width ∧ reqHiDefault.width ≤ 1024 ∧
        256 ≤ reqHiDefault.height ∧ reqHiDefault.height ≤ 1024) :=
  ⟨by decide, by decide,
    (executor_requests_bounded 1024 (by decide)).1 rawPromptOnly reqHiDefault
      (by decide)⟩

/-- C4: an exception from the pipeline call inside `_run_generation`
is re-signaled as `HTTPException(500, str(exc))`, the attempt makes
exactly one pipeline invocation, the global pipeline state is left
unchanged, and a subsequent request against the surviving pipeline
instance succeeds. -/
theorem pipeline_error_becomes_http_500 :
    ∀ (pipeFn pipeFn2 : Pipeline → PipeCall → Except String Image)
      (encode encode2 : Image → String) (d1 e1 t1 d2 e2 t2 : ℚ)
      (cfg : Config) (caps : Caps) (st : ServerState)
      (req req2 : GenerateRequest) (msg : String) (img : Image),
      pipeFn (load_pipeline cfg caps st).1 (pipeCallOf req) = .error msg →
      pipeFn2 (load_pipeline cfg caps st).1 (pipeCallOf req2) = .ok img →
      _run_generation pipeFn encode d1 e1 t1 cfg caps st req =
        (.error ⟨500, msg⟩, (load_pipeline cfg caps st).2.1, 1) ∧
      _run_generation pipeFn2 encode2 d2 e2 t2 cfg caps
          (load_pipeline cfg caps st).2.1 req2 =
        (.ok { image_base64 := encode2 img, seed := req2.seed,
               took_ms := pyTrunc ((t2 + d2 + e2 - t2) * 1000) },
          (load_pipeline cfg caps st).2.1, 1) := by
  intro pipeFn pipeFn2 encode encode2 d1 e1 t1 d2 e2 t2 cfg caps st req req2
    msg img hfail hok
  have hld : load_pipeline cfg caps (load_pipeline cfg caps st).2.1 =
      ((load_pipeline cfg caps st).1, (load_pipeline cfg caps st).2.1,
        false) :=
    load_pipeline_of_some cfg caps _ _ (load_pipeline_state cfg caps st)
  constructor
  · unfold _run_generation
    dsimp only
    rw [hfail]
  · unfold _run_generation
    rw [hld]
    dsimp only
    rw [hok]

/-- Witness for C4: concrete failing and succeeding pipeline stubs. -/
theorem pipeline_error_becomes_http_500_witness :
    (stubPipeFail (load_pipeline cfgDefault capsFull st0).1
        (pipeCallOf reqCat) = .error "boom") ∧
    (stubPipeOk (load_pipeline cfgDefault capsFull st0).1
        (pipeCallOf reqCat) = .ok "PNG") ∧
    (_run_generation stubPipeFail stubEncode 0 0 0 cfgDefault capsFull st0
        reqCat =
      (.error ⟨500, "boom"⟩, (load_pipeline cfgDefault capsFull st0).2.1,
        1) ∧
      _run_generation stubPipeOk stubEncode 0 0 0 cfgDefault capsFull
          (load_pipeline cfgDefault capsFull st0).2.1 reqCat =
        (.ok { image_base64 := stubEncode "PNG", seed := reqCat.seed,
               took_ms := pyTrunc (((0 : ℚ) + 0 + 0 - 0) * 1000) },
          (load_pipeline cfgDefault capsFull st0).2.1, 1)) :=
  ⟨rfl, rfl,
    pipeline_error_becomes_http_500 stubPipeFail stubPipeOk stubEncode
      stubEncode 0 0 0 0 0 0 cfgDefault capsFull st0 reqCat reqCat "boom"
      "PNG" rfl rfl⟩

/-- Counterexample for C9: with a pipeline invocation consuming 0 s
and PNG/base64 encoding consuming 2 s, the reported `took_ms` is 2000,
not the 0 ms of the invocation-only window: the second
`time.perf_counter()` reading is taken after the encoding, so the
measured window extends past the pipeline invocation. -/
theorem took_ms_includes_encoding_window :
    (_run_generation stubPipeOk stubEncode 0 2 5 cfgDefault capsFull st0
        reqCat).1 =
      .ok { image_base64 := "PNG", seed := none, took_ms := 2000 } ∧
    pyTrunc ((0 : ℚ) * 1000) = 0 ∧ ((2000 : ℤ) ≠ 0) := by
  refine ⟨?_, ?_, by decide⟩
  · unfold _run_generation
    dsimp only [stubPipeOk, stubEncode, reqCat]
    rw [show ((5 : ℚ) + 0 + 2 - 5) * 1000 = ((2000 : ℤ) : ℚ) by norm_num,
      pyTrunc_intCast]
  · rw [show ((0 : ℚ) * 1000) = ((0 : ℤ) : ℚ) by norm_num, pyTrunc_intCast]

/-- C9 (amended): in every successful generation response `took_ms` is
the non-negative whole number of milliseconds of the wall-clock window
from just before the pipeline invocation to just after the PNG/base64
encoding of the result (invocation duration plus encoding duration). -/
theorem took_ms_spans_invocation_and_encoding :
    ∀ (pipeFn : Pipeline → PipeCall → Except String Image)
      (encode : Image → String) (pipeDur encDur t0 : ℚ) (cfg : Config)
      (caps : Caps) (st : ServerState) (req : GenerateRequest) (img : Image),
      pipeFn (load_pipeline cfg caps st).1 (pipeCallOf req) = .ok img →
      0 ≤ pipeDur → 0 ≤ encDur →
      (_run_generation pipeFn encode pipeDur encDur t0 cfg caps st req).1 =
        .ok { image_base64 := encode img, seed := req.seed,
              took_ms := pyTrunc ((pipeDur + encDur) * 1000) } ∧
      0 ≤ pyTrunc ((pipeDur + encDur) * 1000) := by
  intro pipeFn encode pipeDur encDur t0 cfg caps st req img hok hd he
  constructor
  · unfold _run_generation
    dsimp only
    rw [hok]
    dsimp only
    have harith : t0 + pipeDur + encDur - t0 = pipeDur + encDur := by ring
    rw [harith]
  · exact pyTrunc_nonneg _ (by positivity)

/-- Witness for C9 (amended): a concrete stubbed run with a 1 s
invocation and 0.5 s encoding reports 1500 ms. -/
theorem took_ms_spans_invocation_and_encoding_witness :
    (stubPipeOk (load_pipeline cfgDefault capsFull st0).1
        (pipeCallOf reqCat) = .ok "PNG") ∧
    (0 : ℚ) ≤ 1 ∧ (0 : ℚ) ≤ 2 ∧
    ((_run_generation stubPipeOk stubEncode 1 2 0 cfgDefault capsFull
          st0 reqCat).1 =
        .ok { image_base64 := stubEncode "PNG", seed := reqCat.seed,
              took_ms := pyTrunc (((1 : ℚ) + 2) * 1000) } ∧
      0 ≤ pyTrunc (((1 : ℚ) + 2) * 1000)) :=
  ⟨rfl, by decide, by decide,
    took_ms_spans_invocation_and_encoding stubPipeOk stubEncode 1 2 0
      cfgDefault capsFull st0 reqCat "PNG" rfl (by decide) (by decide)⟩

/-- Counterexample for C5: `n=2` fails pydantic schema validation, so
FastAPI rejects it with HTTP 422 (not 400); no pipeline invocation is
attempted. -/
theorem n_two_rejected_with_422_not_400 :
    openai_image_endpoint stubPipeOk stubEncode 0 0 0 0 cfgDefault capsFull
        st0 rawN2 =
      (.error (validationError "n: out of range"), st0, 0) ∧
    (validationError "n: out of range").status = 422 ∧ ((422 : ℕ) ≠ 400) :=
  ⟨by decide, by decide, by decide⟩

/-- C5 (amended): on the compatible endpoint a request with `n ≠ 1` is
rejected at schema validation with HTTP 422 (not 400), and a request
with `response_format="url"` is rejected with HTTP 400; in both cases
no pipeline invocation is attempted. -/
theorem unsupported_n_and_response_format_rejected :
    (∀ (raw : RawOpenAIRequest) (k : ℤ), raw.n = some k → k ≠ 1 →
        ∃ err, validateOpenAI raw = .error err ∧ err.status = 422 ∧
          ∀ (pipeFn : Pipeline → PipeCall → Except String Image)
            (encode : Image → String) (d e t0 : ℚ) (epoch : ℤ)
            (cfg : Config) (caps : Caps) (st : ServerState),
            openai_image_endpoint pipeFn encode d e t0 epoch cfg caps st
                raw =
              (.error err, st, 0)) ∧
    (∀ (raw : RawOpenAIRequest) (req : OpenAIImageRequest),
        raw.response_format = some "url" → validateOpenAI raw = .ok req →
        ∀ (pipeFn : Pipeline → PipeCall → Except String Image)
          (encode : Image → String) (d e t0 : ℚ) (epoch : ℤ)
          (cfg : Config) (caps : Caps) (st : ServerState),
          openai_image_endpoint pipeFn encode d e t0 epoch cfg caps st raw =
            (.error ⟨400, "Only response_format=b64_json is supported"⟩,
              st, 0)) := by
  constructor
  · intro raw k hn hk
    have hval : ∃ err, validateOpenAI raw = .error err ∧ err.status = 422 := by
      rcases hp : raw.prompt with _ | p
      · refine ⟨validationError "prompt: field required", ?_, rfl⟩
        unfold validateOpenAI
        rw [hp]
      · refine ⟨validationError "n: out of range", ?_, rfl⟩
        unfold validateOpenAI
        rw [hp]
        dsimp only
        rw [hn]
        dsimp only
        rw [if_pos (by omega)]
    obtain ⟨err, herr, hst⟩ := hval
    refine ⟨err, herr, hst, ?_⟩
    intro pipeFn encode d e t0 epoch cfg caps st
    exact openai_endpoint_of_normalize_error pipeFn encode d e t0 epoch cfg
      caps st raw err
      (normalize_error_of_validate_error cfg.max_edge raw err herr)
  · intro raw req hrf hok pipeFn encode d e t0 epoch cfg caps st
    obtain ⟨-, -, hrfeq, -, -, -, -, -, -⟩ := validateOpenAI_ok_spec raw req hok
    have hrf2 : req.response_format = "url" := by
      rw [hrfeq, hrf]
      rfl
    apply openai_endpoint_of_normalize_error
    unfold normalize_openai
    rw [hok]
    dsimp only
    rw [if_pos (show pyLower req.response_format ≠ "b64_json" by
      rw [hrf2]
      decide)]

/-- Witness for C5 (amended): the concrete `n=2` request is rejected
with the 422 schema error and zero pipeline invocations. -/
theorem unsupported_n_and_response_format_rejected_witness :
    rawN2.n = some 2 ∧ ((2 : ℤ) ≠ 1) ∧
      openai_image_endpoint stubPipeOk stubEncode 0 0 0 0 cfgDefault capsFull
          st0 rawN2 =
        (.error (validationError "n: out of range"), st0, 0) := by
  refine ⟨rfl, by decide, ?_⟩
  obtain ⟨err, herr, hst, hend⟩ :=
    unsupported_n_and_response_format_rejected.1 rawN2 2 rfl (by decide)
  have hv : validateOpenAI rawN2 = .error (validationError "n: out of range") := by
    decide
  rw [hv] at herr
  injection herr with he
  subst he
  exact hend stubPipeOk stubEncode 0 0 0 0 cfgDefault capsFull st0

/-- C6: an OpenAI-compatible request whose `guidance_scale`,
`num_inference_steps` and `size` overrides are absent (or whose size is
the default `"512x512"`) normalizes to a canonical request whose
values are read from the native schema defaults
(`GenerateRequest.model_fields`): `guidance_scale=7.0`,
`num_inference_steps=25`, `width=512`, `height=512` — the very request
a native call with those fields omitted validates to. -/
theorem openai_absent_overrides_use_native_defaults :
    ∀ (maxEdge : ℤ) (raw : RawOpenAIRequest) (q : GenerateRequest),
      raw.guidance_scale = none → raw.num_inference_steps = none →
      (raw.size = none ∨ raw.size = some "512x512") →
      normalize_openai maxEdge raw = .ok q →
      q.guidance_scale = generateDefaults.guidance_scale ∧
      q.num_inference_steps = generateDefaults.num_inference_steps ∧
      q.width = generateDefaults.width ∧ q.height = generateDefaults.height ∧
      q.guidance_scale = 7 ∧ q.num_inference_steps = 25 ∧
      q.width = 512 ∧ q.height = 512 ∧
      validateGenerate maxEdge
        { prompt := some q.prompt, negative_prompt := q.negative_prompt,
          guidance_scale := none, num_inference_steps := none,
          seed := q.seed, width := none, height := none } = .ok q := by
  intro maxEdge raw q hg hn hsz hnorm
  unfold normalize_openai at hnorm
  rcases hv : validateOpenAI raw with e | req
  · rw [hv] at hnorm
    exact absurd hnorm (by simp)
  · rw [hv] at hnorm
    dsimp only at hnorm
    obtain ⟨hp, hsize, hrfeq, hmodel, hneg, hgd, hsteps, hseed, hsdpos⟩ :=
      validateOpenAI_ok_spec raw req hv
    split at hnorm
    · exact absurd hnorm (by simp)
    · have hsize512 : req.size = "512x512" := by
        rcases hsz with h | h
        · rw [hsize, h]
          rfl
        · rw [hsize, h]
          rfl
      rw [hsize512] at hnorm
      rcases hps : _parse_size maxEdge "512x512" with e | wh
      · rw [hps] at hnorm
        exact absurd hnorm (by simp)
      · rcases wh with ⟨w1, h1⟩
        rw [hps] at hnorm
        dsimp only at hnorm
        obtain ⟨hw, hh, hme⟩ := parse_size_512 maxEdge w1 h1 hps
        subst hw
        subst hh
        rw [hgd, hg, hsteps, hn] at hnorm
        simp only [Option.getD_none] at hnorm
        rcases hvg : validateGenerate maxEdge
            { prompt := some req.prompt,
              negative_prompt := req.negative_prompt,
              guidance_scale := some generateDefaults.guidance_scale,
              num_inference_steps :=
                some generateDefaults.num_inference_steps,
              seed := req.seed, width := some 512,
              height := some 512 } with e | q1
        · rw [hvg] at hnorm
          exact absurd hnorm (by simp)
        · rw [hvg] at hnorm
          dsimp only at hnorm
          injection hnorm with h2
          subst h2
          obtain ⟨hq1, hnat⟩ := validateGenerate_defaults_ok maxEdge
            req.prompt req.negative_prompt req.seed q1 hvg
          subst hq1
          exact ⟨rfl, rfl, rfl, rfl, rfl, rfl, rfl, rfl, hnat⟩

/-- Witness for C6: the all-default compatible request normalizes to
the all-default native request. -/
theorem openai_absent_overrides_use_native_defaults_witness :
    rawOpenDefault.guidance_scale = none ∧
    rawOpenDefault.num_inference_steps = none ∧
    (rawOpenDefault.size = none ∨ rawOpenDefault.size = some "512x512") ∧
    normalize_openai 1024 rawOpenDefault = .ok reqCat ∧
    (reqCat.guidance_scale = generateDefaults.guidance_scale ∧
      reqCat.num_inference_steps = generateDefaults.num_inference_steps ∧
      reqCat.width = generateDefaults.width ∧
      reqCat.height = generateDefaults.height ∧
      reqCat.guidance_scale = 7 ∧ reqCat.num_inference_steps = 25 ∧
      reqCat.width = 512 ∧ reqCat.height = 512 ∧
      validateGenerate 1024
        { prompt := some reqCat.prompt,
          negative_prompt := reqCat.negative_prompt, guidance_scale := none,
          num_inference_steps := none, seed := reqCat.seed, width := none,
          height := none } = .ok reqCat) :=
  ⟨rfl, rfl, Or.inl rfl, by decide,
    openai_absent_overrides_use_native_defaults 1024 rawOpenDefault reqCat
      rfl rfl (Or.inl rfl) (by decide)⟩

/-- Counterexample for C7: `response_format="B64_JSON"` is not equal
to `"b64_json"`, yet the request is accepted — the gate lowercases the
field before comparing — and the pipeline is invoked. -/
theorem uppercase_response_format_accepted :
    normalize_openai 1024 rawUpperFmt = .ok reqCat ∧
    (openai_image_endpoint stubPipeOk stubEncode 0 0 0 0 cfgDefault capsFull
        st0 rawUpperFmt).2.2 = 1 ∧
    "B64_JSON" ≠ "b64_json" :=
  ⟨by decide, by decide, by decide⟩

/-- C7 (amended): the `response_format` gate compares
case-insensitively — a validated request whose lowercased
`response_format` differs from `"b64_json"` is rejected with HTTP 400
before size parsing and before any pipeline work, while a value that
lowercases to `"b64_json"` (e.g. `"B64_json"`) is accepted. -/
theorem response_format_gate_is_case_insensitive :
    (∀ (maxEdge : ℤ) (raw : RawOpenAIRequest) (req : OpenAIImageRequest),
        validateOpenAI raw = .ok req →
        pyLower req.response_format ≠ "b64_json" →
        normalize_openai maxEdge raw =
          .error ⟨400, "Only response_format=b64_json is supported"⟩ ∧
        ∀ (pipeFn : Pipeline → PipeCall → Except String Image)
          (encode : Image → String) (d e t0 : ℚ) (epoch : ℤ)
          (cfg : Config) (caps : Caps) (st : ServerState),
          cfg.max_edge = maxEdge →
          openai_image_endpoint pipeFn encode d e t0 epoch cfg caps st raw =
            (.error ⟨400, "Only response_format=b64_json is supported"⟩,
              st, 0)) ∧
    normalize_openai 1024 rawMixedFmt = .ok reqCat := by
  constructor
  · intro maxEdge raw req hok hne
    have hnorm : normalize_openai maxEdge raw =
        .error ⟨400, "Only response_format=b64_json is supported"⟩ := by
      unfold normalize_openai
      rw [hok]
      dsimp only
      rw [if_pos hne]
    refine ⟨hnorm, ?_⟩
    intro pipeFn encode d e t0 epoch cfg caps st hcfg
    apply openai_endpoint_of_normalize_error
    rw [hcfg]
    exact hnorm
  · decide

/-- Witness for C7 (amended): `response_format="url"` is rejected with
the 400 gate error. -/
theorem response_format_gate_is_case_insensitive_witness :
    validateOpenAI rawUrlFmt = .ok reqUrlFmt ∧
    pyLower reqUrlFmt.response_format ≠ "b64_json" ∧
    normalize_openai 1024 rawUrlFmt =
      .error ⟨400, "Only response_format=b64_json is supported"⟩ :=
  ⟨by decide, by decide,
    ((response_format_gate_is_case_insensitive.1 1024 rawUrlFmt reqUrlFmt
      (by decide) (by decide)).1)⟩

/-- C8: the `model` identifier field of a compatible request has no
effect — two requests differing only in `model` (present with any
value, or absent) normalize to the same canonical `GenerateRequest`
and produce the same endpoint behavior. -/
theorem model_field_has_no_effect :
    ∀ (maxEdge : ℤ) (raw : RawOpenAIRequest) (m1 m2 : Option String),
      normalize_openai maxEdge { raw with model := m1 } =
        normalize_openai maxEdge { raw with model := m2 } ∧
      ∀ (pipeFn : Pipeline → PipeCall → Except String Image)
        (encode : Image → String) (d e t0 : ℚ) (epoch : ℤ) (cfg : Config)
        (caps : Caps) (st : ServerState),
        openai_image_endpoint pipeFn encode d e t0 epoch cfg caps st
            { raw with model := m1 } =
          openai_image_endpoint pipeFn encode d e t0 epoch cfg caps st
            { raw with model := m2 } := by
  intro maxEdge raw m1 m2
  refine ⟨normalize_openai_model_invariant maxEdge raw m1 m2, ?_⟩
  intro pipeFn encode d e t0 epoch cfg caps st
  unfold openai_image_endpoint
  rw [normalize_openai_model_invariant cfg.max_edge raw m1 m2]

end VisionServer
